import Mathlib

/-!
Shallow embedding of `ogr/services/abstract.py` (the `GitProject` class and
the domain dataclasses `PullRequest` / `PRComment`), together with the
comment filter/search helpers it imports from `ogr.utils`
(`filter_comments`, `search_in_comments`, `PRStatus`), which are modelled
from the specification because that module is not part of the sources at
hand.

Python lists are embedded as Lean `List`s; `None`-able string arguments as
`Option String`; the stateful backend (the abstract methods
`_get_all_pr_comments` and `get_pr_info` that a concrete forge implements)
as a record of pure functions.  Python truthiness of a `str` argument
(`if filter_regex:`) is embedded explicitly: `None` and the empty string
are falsy.
-/

namespace Ogr

/-- Modelled from the spec: `ogr.utils.PRStatus` is not among the sources;
§3 of the spec describes it as the enumeration `Open`, `Closed`, `Merged`,
`All`. -/
inductive PRStatus where
  | open
  | closed
  | merged
  | all
deriving DecidableEq, Repr

/-- The `PRComment` dataclass of `abstract.py`: a comment body, its author
and two timestamps (embedded as naturals). -/
structure PRComment where
  comment : String
  author : String
  created : Nat
  edited : Nat
deriving DecidableEq, Repr

/-- The `PullRequest` dataclass of `abstract.py`. -/
structure PullRequest where
  title : String
  id : Int
  status : PRStatus
  url : String
  description : String
  author : String
  source_branch : String
  target_branch : String
  created : Nat
deriving DecidableEq, Repr

/-- Modelled from the spec: the pattern-matching primitive used by
`ogr.utils.filter_comments` / `ogr.utils.search_in_comments`, which are not
among the sources.  §4.3 of the spec requires an unanchored search ("first
match anywhere in the string qualifies; no implicit anchoring, no implicit
case-insensitivity") and §9 says the pattern is an opaque
"matches(text) -> bool" capability for which plain substring search is an
admissible instantiation; we instantiate it as unanchored substring
search on the underlying character lists. -/
def matchesPattern (pattern text : String) : Bool :=
  decide (List.IsInfix pattern.toList text.toList)

/-- Modelled from the spec: `ogr.utils.filter_comments` is not among the
sources; §4.3 step 3 describes it as retaining exactly the comments whose
`comment` body matches the pattern via unanchored search. -/
def filter_comments (comments : List PRComment) (filter_regex : String) :
    List PRComment :=
  comments.filter (fun c => matchesPattern filter_regex c.comment)

/-- A search candidate of `search_in_pr`: the Python code builds a
heterogeneous list (`List[Any]`) holding `PRComment` objects and, when the
description is included, one raw string; `search_in_comments` inspects the
type of each element. -/
inductive Candidate where
  | ofComment (c : PRComment)
  | ofText (s : String)
deriving DecidableEq, Repr

/-- The text of a candidate: the `comment` body of a `PRComment`, or the
raw string itself (the `isinstance` dispatch in `ogr.utils`). -/
def Candidate.body : Candidate → String
  | .ofComment c => c.comment
  | .ofText s => s

/-- Modelled from the spec: `ogr.utils.search_in_comments` is not among
the sources; §4.3 step 3 describes it as scanning the ordered candidate
list in order and returning the first match found, or an explicit absent
result if none match.  We return the first matching candidate (standing
for the match object, which references the matched text). -/
def search_in_comments (comments : List Candidate) (filter_regex : String) :
    Option Candidate :=
  comments.find? (fun c => matchesPattern filter_regex c.body)

/-- The backend-supplied primitives of `GitProject` that the default
orchestration methods consume: `_get_all_pr_comments` (unfiltered,
forge-native order) and `get_pr_info`.  Both are abstract
(`NotImplementedError`) in `abstract.py`; a backend is any inhabitant of
this record. -/
structure Backend where
  getAllPrComments : Int → List PRComment
  getPrInfo : Int → PullRequest

/-- Python truthiness of the optional `filter_regex: str = None` argument:
`None` and `""` are falsy, every other string is truthy. -/
def strTruthy : Option String → Bool
  | none => false
  | some s => !s.isEmpty

/-- `GitProject.get_pr_comments` from `abstract.py`: fetch all comments,
reverse if requested, then filter if a truthy pattern was given. -/
def get_pr_comments (b : Backend) (pr_id : Int)
    (filter_regex : Option String) (reverse : Bool) : List PRComment :=
  let all_comments := b.getAllPrComments pr_id
  let all_comments := if reverse then all_comments.reverse else all_comments
  if strTruthy filter_regex then
    filter_comments all_comments (filter_regex.getD "")
  else
    all_comments

/-- The ordered candidate list that `GitProject.search_in_pr` builds
before scanning: the (possibly reversed) comments, with the description
appended at the end when `reverse` is true and inserted at the front
otherwise (the `append` / `insert(0, ...)` branch of `abstract.py`). -/
def search_candidates (b : Backend) (pr_id : Int) (reverse : Bool)
    (description : Bool) : List Candidate :=
  let all_comments :=
    (get_pr_comments b pr_id none reverse).map Candidate.ofComment
  if description then
    let description_content := (b.getPrInfo pr_id).description
    if reverse then
      all_comments ++ [Candidate.ofText description_content]
    else
      Candidate.ofText description_content :: all_comments
  else
    all_comments

/-- `GitProject.search_in_pr` from `abstract.py`: build the candidate list
and delegate to `search_in_comments`. -/
def search_in_pr (b : Backend) (pr_id : Int) (filter_regex : String)
    (reverse : Bool) (description : Bool) : Option Candidate :=
  search_in_comments (search_candidates b pr_id reverse description)
    filter_regex

/-- The identity fields of `GitProject.__init__`: the repository name and
the namespace — spelled `name_space` because `namespace` is reserved in
Lean (the `service` handle plays no role in the claims and is omitted from
the record as behaviour-free). -/
structure GitProjectData where
  repo : String
  name_space : String
deriving DecidableEq, Repr

/-- The `full_repo_name` property of `GitProject`:
`f"{self.namespace}/{self.repo}"`. -/
def full_repo_name (p : GitProjectData) : String :=
  p.name_space ++ "/" ++ p.repo

/-- An explicit state-passing rendering of `get_pr_comments`, used to
state the frame property: the backend (the underlying fetched data) is
threaded through the call and handed back, so that "the underlying data
after the call" is a first-class value.  The list operations
(`List.reverse`, the filter) act on the locally fetched sequence only. -/
def get_pr_comments_st (b : Backend) (pr_id : Int)
    (filter_regex : Option String) (reverse : Bool) :
    List PRComment × Backend :=
  let fetched := (b.getAllPrComments pr_id, b)
  let all_comments := if reverse then fetched.1.reverse else fetched.1
  let result :=
    if strTruthy filter_regex then
      filter_comments all_comments (filter_regex.getD "")
    else
      all_comments
  (result, fetched.2)

end Ogr

namespace Ogr

/-- C5: with no filter and no reversal, `get_pr_comments` returns exactly
the sequence the backend's `_get_all_pr_comments` produced, same elements
in the same order. -/
theorem get_pr_comments_id (b : Backend) (pr_id : Int) :
    get_pr_comments b pr_id none false = b.getAllPrComments pr_id := by
  simp [get_pr_comments, strTruthy]

/-- C6: reversal is an involution: reversing the sequence returned by
`get_pr_comments` with `reverse = true` (no filter) yields exactly the
sequence returned with `reverse = false`. -/
theorem get_pr_comments_reverse_involution (b : Backend) (pr_id : Int) :
    (get_pr_comments b pr_id none true).reverse =
      get_pr_comments b pr_id none false := by
  simp [get_pr_comments, strTruthy]

/-- C9: for every project built from a namespace and a repository name,
`full_repo_name` is the string `namespace ++ "/" ++ repo`, derived purely
from those two fields. -/
theorem full_repo_name_eq (n r : String) :
    full_repo_name (GitProjectData.mk r n) = n ++ "/" ++ r := by
  rfl

/-- C10: an empty string passed as `filter_regex` is falsy in Python, so
`get_pr_comments` with pattern `""` returns exactly what it returns with
no pattern at all, for every backend, pull request and reverse flag. -/
theorem get_pr_comments_empty_pattern (b : Backend) (pr_id : Int)
    (reverse : Bool) :
    get_pr_comments b pr_id (some "") reverse =
      get_pr_comments b pr_id none reverse := by
  simp [get_pr_comments, strTruthy, String.isEmpty]

/-- C1: with `description = true`, the candidate list handed to
`search_in_comments` by `search_in_pr` is the (reversed iff `reverse`)
comment sequence with the pull request's description spliced in: at the
front when `reverse = false`, at the end when `reverse = true`. -/
theorem search_in_pr_candidate_order (b : Backend) (pr_id : Int)
    (filter_regex : String) (reverse : Bool) :
    search_in_pr b pr_id filter_regex reverse true =
      search_in_comments
        (if reverse then
          (b.getAllPrComments pr_id).reverse.map Candidate.ofComment ++
            [Candidate.ofText (b.getPrInfo pr_id).description]
        else
          Candidate.ofText (b.getPrInfo pr_id).description ::
            (b.getAllPrComments pr_id).map Candidate.ofComment)
        filter_regex := by
  cases reverse <;>
    simp [search_in_pr, search_candidates, get_pr_comments, strTruthy]

/-- C2: `search_in_pr` is find-first: with comments whose bodies are
`["alpha", "beta-match", "gamma-match"]` in native order and pattern
`"match"`, the forward scan (description excluded) matches the
`"beta-match"` comment and the reversed scan matches the `"gamma-match"`
comment. -/
theorem search_in_pr_find_first (b : Backend) (pr_id : Int)
    (c1 c2 c3 : PRComment)
    (h : b.getAllPrComments pr_id = [c1, c2, c3])
    (h1 : c1.comment = "alpha") (h2 : c2.comment = "beta-match")
    (h3 : c3.comment = "gamma-match") :
    (search_in_pr b pr_id "match" false false).map Candidate.body =
        some "beta-match" ∧
      (search_in_pr b pr_id "match" true false).map Candidate.body =
        some "gamma-match" := by
  have e1 : matchesPattern "match" "alpha" = false := by decide
  have e2 : matchesPattern "match" "beta-match" = true := by decide
  have e3 : matchesPattern "match" "gamma-match" = true := by decide
  constructor <;>
    simp [search_in_pr, search_candidates, get_pr_comments, strTruthy,
      search_in_comments, h, List.find?, Candidate.body, h1, h2, h3,
      e1, e2, e3]

/-- C3: `get_pr_comments`, rendered with explicit state passing, hands the
backend back unchanged while computing the same result as the pure
rendering: the sequence the backend's `_get_all_pr_comments` produces is
not mutated by retrieval, reversal or filtering. -/
theorem get_pr_comments_frame (b : Backend) (pr_id : Int)
    (filter_regex : Option String) (reverse : Bool) :
    (get_pr_comments_st b pr_id filter_regex reverse).2 = b ∧
      (get_pr_comments_st b pr_id filter_regex reverse).1 =
        get_pr_comments b pr_id filter_regex reverse := by
  constructor <;> rfl

/-- C4: filtering is sound and complete subset selection: a comment is in
the filtered result of `get_pr_comments` exactly when it is in the
unfiltered result and its body matches the pattern (unanchored search). -/
theorem get_pr_comments_filter_iff (b : Backend) (pr_id : Int)
    (p : String) (c : PRComment) :
    c ∈ get_pr_comments b pr_id (some p) false ↔
      c ∈ get_pr_comments b pr_id none false ∧
        matchesPattern p c.comment = true := by
  by_cases hp : p.isEmpty
  · have hnil : p.data = [] := by
      have : p = "" := by simpa [String.isEmpty_iff] using hp
      simp [this]
    have hmatch : matchesPattern p c.comment = true := by
      simp only [matchesPattern, String.toList, hnil, decide_eq_true_eq]
      exact List.nil_infix
    simp [get_pr_comments, strTruthy, hp, hmatch]
  · simp [get_pr_comments, strTruthy, hp, filter_comments, List.mem_filter]

/-- C7: no match is an absence, not an error: when no comment body matches
the pattern and (if the description is included) the description does not
match either, `search_in_pr` returns `none`. -/
theorem search_in_pr_no_match (b : Backend) (pr_id : Int)
    (filter_regex : String) (reverse d : Bool)
    (hc : ∀ c ∈ b.getAllPrComments pr_id,
      matchesPattern filter_regex c.comment = false)
    (hd : d = true →
      matchesPattern filter_regex (b.getPrInfo pr_id).description = false) :
    search_in_pr b pr_id filter_regex reverse d = none := by
  rw [search_in_pr, search_in_comments, List.find?_eq_none]
  intro x hx
  simp only [search_candidates, get_pr_comments, strTruthy, if_neg,
    Bool.false_eq_true, not_false_eq_true, if_false] at hx
  cases d with
  | false =>
    simp only [if_false, Bool.false_eq_true, List.mem_map] at hx
    obtain ⟨c, hc', rfl⟩ := hx
    have : c ∈ b.getAllPrComments pr_id := by
      cases reverse <;> simp_all
    simp [Candidate.body, hc _ this]
  | true =>
    simp only [if_true] at hx
    cases reverse with
    | false =>
      simp only [Bool.false_eq_true, if_false, List.mem_cons,
        List.mem_map] at hx
      rcases hx with rfl | ⟨c, hc', rfl⟩
      · simp [Candidate.body, hd rfl]
      · simp [Candidate.body, hc _ hc']
    | true =>
      simp only [if_true, List.mem_append, List.mem_map,
        List.mem_singleton] at hx
      rcases hx with ⟨c, hc', rfl⟩ | rfl
      · have : c ∈ b.getAllPrComments pr_id := by simp_all
        simp [Candidate.body, hc _ this]
      · simp [Candidate.body, hd rfl]

/-- C8: with `description = false` the result of `search_in_pr` is
independent of the pull request metadata (in particular of the
description): two backends that fetch the same comments give the same
result whatever their `get_pr_info` returns. -/
theorem search_in_pr_desc_independent (b1 b2 : Backend) (pr_id : Int)
    (filter_regex : String) (reverse : Bool)
    (h : b1.getAllPrComments = b2.getAllPrComments) :
    search_in_pr b1 pr_id filter_regex reverse false =
      search_in_pr b2 pr_id filter_regex reverse false := by
  simp [search_in_pr, search_candidates, get_pr_comments, strTruthy, h]

/-- A comment with the given body and fixed metadata, for concrete
witnesses. -/
def mkComment (s : String) : PRComment :=
  PRComment.mk s "author" 0 0

/-- A pull request with the given description and fixed metadata, for
concrete witnesses. -/
def mkPR (desc : String) : PullRequest :=
  PullRequest.mk "title" 1 PRStatus.open "url" desc "author" "src" "dst" 0

/-- A backend whose pull requests all carry the comments
`["alpha", "beta-match", "gamma-match"]` and the description `"desc"`. -/
def demoBackendA : Backend :=
  Backend.mk
    (fun _ => [mkComment "alpha", mkComment "beta-match",
      mkComment "gamma-match"])
    (fun _ => mkPR "desc")

/-- Witness for C2 at the backend `demoBackendA`. -/
theorem search_in_pr_find_first_witness :
    (search_in_pr demoBackendA 1 "match" false false).map Candidate.body =
        some "beta-match" ∧
      (search_in_pr demoBackendA 1 "match" true false).map Candidate.body =
        some "gamma-match" :=
  search_in_pr_find_first demoBackendA 1 (mkComment "alpha")
    (mkComment "beta-match") (mkComment "gamma-match") rfl rfl rfl rfl

/-- A backend whose pull requests all carry the comments `["a", "b"]` and
the non-matching description `"quiet"`. -/
def demoBackendB : Backend :=
  Backend.mk (fun _ => [mkComment "a", mkComment "b"]) (fun _ => mkPR "quiet")

/-- Witness for C7: pattern `"zzz-nonexistent"` against comments
`["a", "b"]` and description `"quiet"`, description included, yields
`none`. -/
theorem search_in_pr_no_match_witness :
    search_in_pr demoBackendB 1 "zzz-nonexistent" false true = none :=
  search_in_pr_no_match demoBackendB 1 "zzz-nonexistent" false true
    (by decide) (fun _ => by decide)

/-- A backend like `demoBackendB` but whose description contains
`"match"`. -/
def demoBackendC : Backend :=
  Backend.mk (fun _ => [mkComment "a", mkComment "b"])
    (fun _ => mkPR "desc-match")

/-- Witness for C8: `demoBackendB` and `demoBackendC` differ only in the
description (one matches the pattern, the other does not), yet with
`description = false` the search results agree. -/
theorem search_in_pr_desc_independent_witness :
    search_in_pr demoBackendC 1 "match" false false =
      search_in_pr demoBackendB 1 "match" false false :=
  search_in_pr_desc_independent demoBackendC demoBackendB 1 "match" false rfl

end Ogr
